import Mathlib

/-!
Shallow embedding of the listing-tracking and notification engine of
`vk_bot.py` (class `VKAutoMonitorBot`).  Python dictionaries become Lean
structures, the per-user mutable record becomes explicit state passing,
Python `int` becomes `ℤ`, the float percentage arithmetic of the monitor
becomes exact `ℚ` arithmetic, timestamps (`datetime.now().isoformat()`)
are abstracted to an opaque `ℕ` clock value supplied by the caller, and
the fallible fetch (`parser.fetch_car_data`) becomes an explicit outcome
parameter.  Outgoing `send_message` calls become a list of `OutMsg`
values whose payload fields mirror the data interpolated into the
Russian message text by the source.
-/

namespace VKBot

/-- Python truthiness for an optional integer field: `None` and `0` are falsy,
every other integer is truthy.  Used wherever the source writes
`if filters['price_min'] and ...` or `if car_data.get('year'):`. -/
def truthy : Option ℤ → Bool
  | none => false
  | some n => n != 0

/-- Python truthiness for an optional string field: `None` and `""` are falsy.
Used for `if not user_data['city']`. -/
def truthyStr : Option String → Bool
  | none => false
  | some s => s != ""

/-- listStartsWith n h is true when n is an initial segment of h. -/
def listStartsWith : List Char → List Char → Bool
  | [], _ => true
  | _ :: _, [] => false
  | a :: as, b :: bs => a == b && listStartsWith as bs

/-- Substring test modelling the Python `needle in hay` operator on strings
(used for the `'auto.ru' in url` site check). -/
def strContains (hay needle : String) : Bool :=
  (List.range (hay.toList.length + 1)).any fun i =>
    listStartsWith needle.toList (hay.toList.drop i)

/-- Lowercasing of one character, modelling Python `str.lower()` on the
alphabets the bot actually compares: ASCII A-Z and Cyrillic А-Я / Ё. -/
def pyLowerChar (c : Char) : Char :=
  if 'A' ≤ c ∧ c ≤ 'Z' then Char.ofNat (c.toNat + 32)
  else if 'А' ≤ c ∧ c ≤ 'Я' then Char.ofNat (c.toNat + 32)
  else if c = 'Ё' then 'ё'
  else c

/-- Lowercasing of a string, modelling Python `str.lower()` on the relevant
alphabets. -/
def pyLower (s : String) : String :=
  String.mk (s.toList.map pyLowerChar)

/-- Whitespace characters stripped by Python `int()` before parsing. -/
def isSpaceChar (c : Char) : Bool :=
  c == ' ' || c == '\t' || c == '\n' || c == '\r'

/-- Strip leading and trailing whitespace from a character list. -/
def pyStripList (cs : List Char) : List Char :=
  ((cs.dropWhile isSpaceChar).reverse.dropWhile isSpaceChar).reverse

/-- Accumulate the value of a run of decimal digits; fails on any
non-digit character. -/
def digitsValAux : List Char → ℕ → Option ℕ
  | [], acc => some acc
  | c :: cs, acc =>
      if c.isDigit then digitsValAux cs (acc * 10 + (c.toNat - 48)) else none

/-- Value of a non-empty all-digit character list. -/
def digitsVal : List Char → Option ℕ
  | [] => none
  | c :: cs => digitsValAux (c :: cs) 0

/-- Model of Python `int(s)`: optional surrounding whitespace, an optional
sign, then decimal digits; anything else raises `ValueError`, modelled as
`none`.  (Underscore-grouped numerals, which CPython also accepts, are
outside the modelled input domain.) -/
def pyInt (s : String) : Option ℤ :=
  match pyStripList s.toList with
  | '-' :: rest => (digitsVal rest).map fun n => -(n : ℤ)
  | '+' :: rest => (digitsVal rest).map fun n => (n : ℤ)
  | cs => (digitsVal cs).map fun n => (n : ℤ)

/-- Model of `value.replace(' ', '').replace(',', '')` in the price
handlers. -/
def removeSpaceComma (s : String) : String :=
  String.mk (s.toList.filter fun c => !(c == ' ' || c == ','))

/-- Dialog states, mirroring the `STATE_*` string constants of the source. -/
inductive BotState
  | mainMenu
  | choosingCity
  | addingUrl
  | settingFilters
  | priceMin
  | priceMax
  | yearMin
  | yearMax
  | condition
  | documents
deriving DecidableEq

/-- Stored condition filter values ('new' / 'used' / 'any'). -/
inductive CondVal
  | newCar
  | used
  | anyCond
deriving DecidableEq

/-- Stored documents filter values ('with_docs' / 'without_docs' / 'any'). -/
inductive DocsVal
  | withDocs
  | withoutDocs
  | anyDocs
deriving DecidableEq

/-- The per-user `filters` dictionary. -/
structure Filters where
  price_min : Option ℤ
  price_max : Option ℤ
  year_min : Option ℤ
  year_max : Option ℤ
  condition : Option CondVal
  documents : Option DocsVal
deriving DecidableEq

/-- The filters dictionary as created by `get_user_data` and reset by
`handle_clear_filters`: every field `None`. -/
def emptyFilters : Filters :=
  { price_min := none, price_max := none, year_min := none, year_max := none,
    condition := none, documents := none }

/-- A normalized listing snapshot as returned by `parser.fetch_car_data`. -/
structure CarData where
  title : String
  price : ℤ
  site : String
  year : Option ℤ
  mileage : Option ℤ
  location : Option String
deriving DecidableEq

/-- One `{price, date}` entry of the `price_history` list. -/
structure PricePoint where
  price : ℤ
  date : ℕ
deriving DecidableEq

/-- One tracked listing record (`monitored_cars[url]`). -/
structure TrackedCar where
  title : String
  price : ℤ
  initial_price : ℤ
  site : String
  year : Option ℤ
  mileage : Option ℤ
  location : Option String
  added_date : ℕ
  last_check : ℕ
  price_history : List PricePoint
deriving DecidableEq

/-- One user's persisted record (`user_data[user_id]`).  `monitored_cars`
is an insertion-ordered association list keyed by URL, mirroring a Python
dict. -/
structure UserData where
  city : Option String
  monitored_cars : List (String × TrackedCar)
  filters : Filters
  price_threshold : ℚ
deriving DecidableEq

/-- One user's conversational session: the entry of `user_states` together
with that user's persisted record. -/
structure Session where
  state : BotState
  user : UserData
deriving DecidableEq

/-- Outgoing messages.  Each constructor stands for one `send_message`
call site of the source; payload fields carry the data the source
interpolates into the message text. -/
inductive OutMsg
  | welcome
  | chooseCity
  | askCustomCity
  | citySet (city : String)
  | needCityFirst
  | askUrl
  | invalidUrl
  | duplicateListing
  | fetching
  | fetchFailed
  | filterMismatch (title : String) (price : ℤ) (year : Option ℤ)
  | added (title : String) (price : ℤ)
  | noCars
  | listCars
  | filtersMenu
  | askPriceMin
  | askPriceMax
  | priceFormatError
  | askYearMin
  | askYearMax
  | yearSet
  | yearRangeError (lo hi : ℤ)
  | priceSet
  | askCondition
  | conditionSet
  | askDocuments
  | documentsSet
  | filtersCleared
  | settingsShown
  | helpShown
deriving DecidableEq

/-- check_filters of the source: price bounds always, year bounds only when
the snapshot carries a truthy year; the condition and documents branches of
the source are stubs (`pass`) and never reject. -/
def check_filters (car : CarData) (f : Filters) : Bool :=
  if truthy f.price_min && decide (car.price < f.price_min.getD 0) then false
  else if truthy f.price_max && decide (f.price_max.getD 0 < car.price) then false
  else if truthy car.year then
    if truthy f.year_min && decide (car.year.getD 0 < f.year_min.getD 0) then false
    else if truthy f.year_max && decide (f.year_max.getD 0 < car.year.getD 0) then false
    else true
  else true

/-- The literal reading of the specification's rejection condition for
`FilterEngine.matches`: a bound counts as "set" when the field is present
(`isSome`), and year constraints apply whenever `snapshot.year` is present. -/
def claimRejects (car : CarData) (f : Filters) : Bool :=
  (f.price_min.isSome && decide (car.price < f.price_min.getD 0)) ||
  (f.price_max.isSome && decide (f.price_max.getD 0 < car.price)) ||
  (car.year.isSome &&
    ((f.year_min.isSome && decide (car.year.getD 0 < f.year_min.getD 0)) ||
     (f.year_max.isSome && decide (f.year_max.getD 0 < car.year.getD 0))))

/-- The rejection condition actually implemented by `check_filters`: a bound
counts as set only when present and non-zero (Python truthiness), and the
year constraints apply only when the snapshot year is present and non-zero. -/
def truthyRejects (car : CarData) (f : Filters) : Bool :=
  (truthy f.price_min && decide (car.price < f.price_min.getD 0)) ||
  (truthy f.price_max && decide (f.price_max.getD 0 < car.price)) ||
  (truthy car.year &&
    ((truthy f.year_min && decide (car.year.getD 0 < f.year_min.getD 0)) ||
     (truthy f.year_max && decide (f.year_max.getD 0 < car.year.getD 0))))

/-- handle_start: reset to the main menu and greet.  `get_user_data` only
creates a missing record; for the modelled (existing) user it is a no-op. -/
def handle_start (sess : Session) : Session × List OutMsg :=
  ({ sess with state := BotState.mainMenu }, [OutMsg.welcome])

/-- handle_choose_city: enter the city-choice state. -/
def handle_choose_city (sess : Session) : Session × List OutMsg :=
  ({ sess with state := BotState.choosingCity }, [OutMsg.chooseCity])

/-- handle_city_selected: the custom-city button only re-prompts (no state
change); any other text is stored as the city and the session returns to
the main menu. -/
def handle_city_selected (sess : Session) (city : String) : Session × List OutMsg :=
  if city = "✏️ Другой город" then (sess, [OutMsg.askCustomCity])
  else
    ({ state := BotState.mainMenu, user := { sess.user with city := some city } },
     [OutMsg.citySet city])

/-- handle_add_url: refuse when no city is set (stay put), otherwise enter
the URL-awaiting state. -/
def handle_add_url (sess : Session) : Session × List OutMsg :=
  if truthyStr sess.user.city = false then (sess, [OutMsg.needCityFirst])
  else ({ sess with state := BotState.addingUrl }, [OutMsg.askUrl])

/-- URL validation: the source accepts a URL iff it contains one of the two
site markers. -/
def siteOk (url : String) : Bool :=
  strContains url "auto.ru" || strContains url "drom.ru"

/-- The TrackedCar record built and stored by `handle_url_received` on a
successful add (the `monitored_cars[url] = {...}` literal). -/
def mkTrackedCar (d : CarData) (now : ℕ) : TrackedCar :=
  { title := d.title, price := d.price, initial_price := d.price,
    site := d.site, year := d.year, mileage := d.mileage,
    location := d.location, added_date := now, last_check := now,
    price_history := [{ price := d.price, date := now }] }

/-- handle_url_received: site-marker validation, duplicate check, fetch
(outcome supplied as the `fetched` parameter), filter check, then creation.
On filter mismatch the source only warns and returns with no state change
and no stored override flag. -/
def handle_url_received (now : ℕ) (sess : Session) (url : String)
    (fetched : Option CarData) : Session × List OutMsg :=
  if siteOk url = false then (sess, [OutMsg.invalidUrl])
  else if (List.lookup url sess.user.monitored_cars).isSome then
    ({ sess with state := BotState.mainMenu }, [OutMsg.duplicateListing])
  else
    match fetched with
    | none => (sess, [OutMsg.fetching, OutMsg.fetchFailed])
    | some d =>
        if check_filters d sess.user.filters = false then
          (sess, [OutMsg.fetching, OutMsg.filterMismatch d.title d.price d.year])
        else
          ({ state := BotState.mainMenu,
             user := { sess.user with
               monitored_cars := sess.user.monitored_cars ++ [(url, mkTrackedCar d now)] } },
           [OutMsg.fetching, OutMsg.added d.title d.price])

/-- handle_list_cars: read-only; re-renders the main menu keyboard but does
not change the stored state. -/
def handle_list_cars (sess : Session) : Session × List OutMsg :=
  if sess.user.monitored_cars.isEmpty then (sess, [OutMsg.noCars])
  else (sess, [OutMsg.listCars])

/-- handle_filters_menu: enter the filter menu state. -/
def handle_filters_menu (sess : Session) : Session × List OutMsg :=
  ({ sess with state := BotState.settingFilters }, [OutMsg.filtersMenu])

/-- handle_price_filter: enter the price-min input state. -/
def handle_price_filter (sess : Session) : Session × List OutMsg :=
  ({ sess with state := BotState.priceMin }, [OutMsg.askPriceMin])

/-- handle_price_min: parse `int(value.replace(' ','').replace(',',''))`;
negative or unparsable input raises `ValueError`, caught as a format-error
reply with no state change; otherwise store (`0` clears the bound) and move
to the price-max state. -/
def handle_price_min (sess : Session) (value : String) : Session × List OutMsg :=
  match pyInt (removeSpaceComma value) with
  | none => (sess, [OutMsg.priceFormatError])
  | some price =>
      if price < 0 then (sess, [OutMsg.priceFormatError])
      else
        ({ state := BotState.priceMax,
           user := { sess.user with filters :=
             { sess.user.filters with
               price_min := if 0 < price then some price else none } } },
         [OutMsg.askPriceMax])

/-- handle_price_max: as handle_price_min, then back to the filter menu. -/
def handle_price_max (sess : Session) (value : String) : Session × List OutMsg :=
  match pyInt (removeSpaceComma value) with
  | none => (sess, [OutMsg.priceFormatError])
  | some price =>
      if price < 0 then (sess, [OutMsg.priceFormatError])
      else
        ({ state := BotState.settingFilters,
           user := { sess.user with filters :=
             { sess.user.filters with
               price_max := if 0 < price then some price else none } } },
         [OutMsg.priceSet])

/-- handle_year_filter: enter the year-min input state. -/
def handle_year_filter (sess : Session) : Session × List OutMsg :=
  ({ sess with state := BotState.yearMin }, [OutMsg.askYearMin])

/-- handle_year_min: parse `int(value)`; a non-zero year outside
[1900, currentYear] (and unparsable input) raises `ValueError`, answered by
an error message restating the valid range with no state change; otherwise
store (`0` clears the bound) and move to the year-max state. -/
def handle_year_min (currentYear : ℤ) (sess : Session) (value : String) :
    Session × List OutMsg :=
  match pyInt value with
  | none => (sess, [OutMsg.yearRangeError 1900 currentYear])
  | some year =>
      if year ≠ 0 ∧ (year < 1900 ∨ currentYear < year) then
        (sess, [OutMsg.yearRangeError 1900 currentYear])
      else
        ({ state := BotState.yearMax,
           user := { sess.user with filters :=
             { sess.user.filters with
               year_min := if 0 < year then some year else none } } },
         [OutMsg.askYearMax])

/-- handle_year_max: as handle_year_min, then back to the filter menu. -/
def handle_year_max (currentYear : ℤ) (sess : Session) (value : String) :
    Session × List OutMsg :=
  match pyInt value with
  | none => (sess, [OutMsg.yearRangeError 1900 currentYear])
  | some year =>
      if year ≠ 0 ∧ (year < 1900 ∨ currentYear < year) then
        (sess, [OutMsg.yearRangeError 1900 currentYear])
      else
        ({ state := BotState.settingFilters,
           user := { sess.user with filters :=
             { sess.user.filters with
               year_max := if 0 < year then some year else none } } },
         [OutMsg.yearSet])

/-- handle_condition_filter: enter the condition-choice state. -/
def handle_condition_filter (sess : Session) : Session × List OutMsg :=
  ({ sess with state := BotState.condition }, [OutMsg.askCondition])

/-- handle_condition_selected: store a mapped label and return to the
filter menu; unmapped input is silently ignored (no transition, no reply). -/
def handle_condition_selected (sess : Session) (text : String) : Session × List OutMsg :=
  let mapped : Option CondVal :=
    if text = "🆕 Новый" then some CondVal.newCar
    else if text = "🔧 С пробегом" then some CondVal.used
    else if text = "🔄 Любое" then some CondVal.anyCond
    else none
  match mapped with
  | none => (sess, [])
  | some c =>
      ({ state := BotState.settingFilters,
         user := { sess.user with filters :=
           { sess.user.filters with condition := some c } } },
       [OutMsg.conditionSet])

/-- handle_documents_filter: enter the documents-choice state. -/
def handle_documents_filter (sess : Session) : Session × List OutMsg :=
  ({ sess with state := BotState.documents }, [OutMsg.askDocuments])

/-- handle_documents_selected: store a mapped label and return to the
filter menu; unmapped input is silently ignored. -/
def handle_documents_selected (sess : Session) (text : String) : Session × List OutMsg :=
  let mapped : Option DocsVal :=
    if text = "✅ С документами" then some DocsVal.withDocs
    else if text = "❌ Без документов" then some DocsVal.withoutDocs
    else if text = "🔄 Любые" then some DocsVal.anyDocs
    else none
  match mapped with
  | none => (sess, [])
  | some d =>
      ({ state := BotState.settingFilters,
         user := { sess.user with filters :=
           { sess.user.filters with documents := some d } } },
       [OutMsg.documentsSet])

/-- handle_clear_filters: reset every filter field and stay in the filter
menu. -/
def handle_clear_filters (sess : Session) : Session × List OutMsg :=
  ({ state := BotState.settingFilters,
     user := { sess.user with filters := emptyFilters } },
   [OutMsg.filtersCleared])

/-- handle_settings / handle_help: read-only, no state change. -/
def handle_settings (sess : Session) : Session × List OutMsg :=
  (sess, [OutMsg.settingsShown])

/-- handle_help of the source. -/
def handle_help (sess : Session) : Session × List OutMsg :=
  (sess, [OutMsg.helpShown])

/-- The three lowercased escape texts of the main dispatcher. -/
def escapeTexts : List String := ["начать", "start", "меню"]

/-- handle_message: the main dispatcher.  `message` is the already-stripped
`event.text.strip()`; `fetched` supplies the outcome of the fetch an
AddingUrl submission would perform; `currentYear` and `now` abstract
`datetime.now()`.  The source falls through silently (no-op) on unmatched
input in the filter-menu branch, and the final `mainMenu` match arm is
unreachable because that state is always captured by the main-menu branch. -/
def handle_message (currentYear : ℤ) (now : ℕ) (fetched : Option CarData)
    (sess : Session) (message : String) : Session × List OutMsg :=
  if message = "« Назад" then handle_start sess
  else if sess.state = BotState.mainMenu ∨ pyLower message ∈ escapeTexts then
    if message = "🏙 Выбрать город" then handle_choose_city sess
    else if message = "➕ Добавить объявление" then handle_add_url sess
    else if message = "📋 Мои объявления" then handle_list_cars sess
    else if message = "🔍 Фильтры" then handle_filters_menu sess
    else if message = "⚙️ Настройки" then handle_settings sess
    else if message = "❓ Помощь" then handle_help sess
    else handle_start sess
  else
    match sess.state with
    | BotState.choosingCity => handle_city_selected sess message
    | BotState.addingUrl => handle_url_received now sess message fetched
    | BotState.settingFilters =>
        if message = "💰 Цена" then handle_price_filter sess
        else if message = "📅 Год выпуска" then handle_year_filter sess
        else if message = "🚗 Состояние" then handle_condition_filter sess
        else if message = "📄 Документы" then handle_documents_filter sess
        else if message = "🗑 Сбросить фильтры" then handle_clear_filters sess
        else (sess, [])
    | BotState.priceMin => handle_price_min sess message
    | BotState.priceMax => handle_price_max sess message
    | BotState.yearMin => handle_year_min currentYear sess message
    | BotState.yearMax => handle_year_max currentYear sess message
    | BotState.condition => handle_condition_selected sess message
    | BotState.documents => handle_documents_selected sess message
    | BotState.mainMenu => (sess, [])

/-- Direction of an accepted price change. -/
inductive Direction
  | increase
  | decrease
deriving DecidableEq

/-- The data interpolated into the price-change notification text of
`monitor_prices`: old price, new price, signed absolute delta, signed
percent delta, the decrease/increase wording, and, for decreases only, the
savings line. -/
structure Notification where
  oldPrice : ℤ
  newPrice : ℤ
  delta : ℤ
  percent : ℚ
  direction : Direction
  savings : Option ℤ
deriving DecidableEq

/-- The absolute percent delta computed by `monitor_prices`:
`abs((new_price - old_price) / old_price * 100)`, in exact rational
arithmetic. -/
def pricePct (old new : ℤ) : ℚ :=
  |((new : ℚ) - (old : ℚ)) / (old : ℚ) * 100|

/-- Outcome of the background fetch for one listing: the `await` raised an
exception, returned a falsy value (`None`), or returned a snapshot. -/
inductive FetchOutcome
  | raise
  | noData
  | data (d : CarData)
deriving DecidableEq

/-- One iteration of the inner loop of `monitor_prices` for one tracked
listing.  A raised fetch is caught by the per-listing `except` before any
mutation; a `None` result hits `continue` before `last_check` is touched;
otherwise `last_check` is refreshed and, when the price differs and the
absolute percent delta reaches the threshold, the price is updated, a
history entry appended, and a notification emitted.  When the stored price
is `0` and the new price differs, the percent division raises
`ZeroDivisionError`, caught by the same `except`, leaving only the already
performed `last_check` refresh. -/
def monitorListing (th : ℚ) (car : TrackedCar) (o : FetchOutcome) (now : ℕ) :
    TrackedCar × Option Notification :=
  match o with
  | FetchOutcome.raise => (car, none)
  | FetchOutcome.noData => (car, none)
  | FetchOutcome.data d =>
      if car.price = d.price then ({ car with last_check := now }, none)
      else if car.price = 0 then ({ car with last_check := now }, none)
      else if th ≤ pricePct car.price d.price then
        ({ car with
             price := d.price,
             last_check := now,
             price_history := car.price_history ++ [{ price := d.price, date := now }] },
         some { oldPrice := car.price, newPrice := d.price,
                delta := d.price - car.price,
                percent := ((d.price : ℚ) - (car.price : ℚ)) / (car.price : ℚ) * 100,
                direction := if d.price < car.price then Direction.decrease
                             else Direction.increase,
                savings := if d.price < car.price then some (car.price - d.price)
                           else none })
      else ({ car with last_check := now }, none)

/-- The inner loop of `monitor_prices` over one user's `monitored_cars`,
each listing paired with its fetch outcome.  Every listing is visited —
a failed listing never aborts the remainder of the loop. -/
def monitorCars (th : ℚ) (now : ℕ) :
    List ((String × TrackedCar) × FetchOutcome) →
      List (String × TrackedCar) × List Notification
  | [] => ([], [])
  | ((url, car), o) :: rest =>
      let step := monitorListing th car o now
      let tail := monitorCars th now rest
      ((url, step.1) :: tail.1, step.2.toList ++ tail.2)

/-- One full pass of `monitor_prices` over every user; each user's fetch
outcomes are supplied positionally.  A user with no tracked cars hits
`continue`, which coincides with processing the empty list. -/
def monitorPass (now : ℕ) :
    List (UserData × List FetchOutcome) → List (UserData × List Notification)
  | [] => []
  | (u, os) :: rest =>
      let r := monitorCars u.price_threshold now (u.monitored_cars.zip os)
      ({ u with monitored_cars := r.1 }, r.2) :: monitorPass now rest

/-- The price-history invariant of the data model: the last history entry
exists and records the current price. -/
def histInv (car : TrackedCar) : Prop :=
  Option.map PricePoint.price car.price_history.getLast? = some car.price

instance (car : TrackedCar) : Decidable (histInv car) := by
  unfold histInv; infer_instance

/-- A concrete tracked listing used by concrete instantiations: threshold
scenario of the specification (initial price 1,000,000). -/
def exCar : TrackedCar :=
  { title := "Kia Rio", price := 1000000, initial_price := 1000000,
    site := "auto.ru", year := some 2015, mileage := none, location := none,
    added_date := 0, last_check := 0,
    price_history := [{ price := 1000000, date := 0 }] }

/-- A fresh snapshot priced 900,000: a 10 percent drop. -/
def exDrop : CarData :=
  { title := "Kia Rio", price := 900000, site := "auto.ru",
    year := some 2015, mileage := none, location := none }

/-- A fresh snapshot priced 960,000: a 4 percent drift, below the default
threshold of 5. -/
def exDrift : CarData :=
  { title := "Kia Rio", price := 960000, site := "auto.ru",
    year := some 2015, mileage := none, location := none }

/-- A user who already tracks one listing. -/
def dupUser : UserData :=
  { city := some "Москва",
    monitored_cars := [("https://auto.ru/cars/used/sale/1", exCar)],
    filters := emptyFilters, price_threshold := 5 }

/-- The session of `dupUser` in the URL-awaiting state. -/
def dupSess : Session := ⟨BotState.addingUrl, dupUser⟩

/-- A snapshot whose year field is present but zero, together with a stored
lower year bound: the input separating the specification's reading of
"year is present" from the source's truthiness test. -/
def c5Snap : CarData :=
  { title := "ВАЗ 2101", price := 1000000, site := "drom.ru",
    year := some 0, mileage := none, location := none }

/-- Filters with only a lower year bound set. -/
def c5Filters : Filters := { emptyFilters with year_min := some 1900 }

/-- A user with a minimum-price filter of 500,000 and no tracked cars. -/
def c4User : UserData :=
  { city := some "Москва", monitored_cars := [],
    filters := { emptyFilters with price_min := some 500000 },
    price_threshold := 5 }

/-- The session of `c4User` in the URL-awaiting state. -/
def c4Sess : Session := ⟨BotState.addingUrl, c4User⟩

/-- The URL submitted (twice) in the filter-mismatch scenario. -/
def c4Url : String := "https://auto.ru/cars/used/sale/1"

/-- The snapshot fetched for `c4Url`: price 400,000, below the user's
minimum-price filter. -/
def c4Snap : CarData :=
  { title := "Kia Rio", price := 400000, site := "auto.ru",
    year := none, mileage := none, location := none }

/-- A user with no filters and no tracked cars. -/
def c8User : UserData :=
  { city := some "Москва", monitored_cars := [],
    filters := emptyFilters, price_threshold := 5 }

/-- The session of `c8User` awaiting the minimum price of the price-range
flow. -/
def c8Start : Session := ⟨BotState.priceMin, c8User⟩

/-- The session after the user entered "500000" as the minimum price:
awaiting the maximum price. -/
def c8Mid : Session := (handle_message 2026 0 none c8Start "500000").1

/-- Appending one element makes it the last element. -/
theorem getLast_append_single {α : Type} (l : List α) (a : α) :
    (l ++ [a]).getLast? = some a := by
  rw [List.getLast?_append_cons]
  rfl

/-- C1: for a fresh snapshot whose price differs from the stored price by an
absolute percent delta at or above the threshold, the poll update stores the
new price, appends a history entry with the new price, and emits a
notification carrying the old price, the new price, the signed absolute and
percent delta, the direction, and (for decreases) a savings figure equal to
old minus new. -/
theorem notify_on_threshold_change (th : ℚ) (car : TrackedCar) (d : CarData)
    (now : ℕ) (hne : d.price ≠ car.price) (hz : car.price ≠ 0)
    (hth : th ≤ pricePct car.price d.price) :
    monitorListing th car (FetchOutcome.data d) now =
      ({ car with
           price := d.price,
           last_check := now,
           price_history := car.price_history ++ [{ price := d.price, date := now }] },
       some { oldPrice := car.price, newPrice := d.price,
              delta := d.price - car.price,
              percent := ((d.price : ℚ) - (car.price : ℚ)) / (car.price : ℚ) * 100,
              direction := if d.price < car.price then Direction.decrease
                           else Direction.increase,
              savings := if d.price < car.price then some (car.price - d.price)
                         else none }) := by
  have h1 : ¬ car.price = d.price := fun hh => hne hh.symm
  simp only [monitorListing]
  rw [if_neg h1, if_neg hz, if_pos hth]

/-- Witness for C1: the specification's scenario, 1,000,000 dropping to
900,000 at threshold 5 (a 10 percent decrease). -/
theorem notify_on_threshold_change_witness :
    monitorListing 5 exCar (FetchOutcome.data exDrop) 7 =
      ({ exCar with
           price := exDrop.price,
           last_check := 7,
           price_history := exCar.price_history ++ [{ price := exDrop.price, date := 7 }] },
       some { oldPrice := exCar.price, newPrice := exDrop.price,
              delta := exDrop.price - exCar.price,
              percent := ((exDrop.price : ℚ) - (exCar.price : ℚ)) / (exCar.price : ℚ) * 100,
              direction := if exDrop.price < exCar.price then Direction.decrease
                           else Direction.increase,
              savings := if exDrop.price < exCar.price then some (exCar.price - exDrop.price)
                         else none }) :=
  notify_on_threshold_change 5 exCar exDrop 7 (by decide) (by decide)
    (by norm_num [pricePct, exCar, exDrop])

/-- C2: for a fresh snapshot whose price equals the stored price, or differs
from it by an absolute percent delta strictly below the threshold, the poll
update only refreshes the last-checked timestamp: price and history are
unchanged and no notification is emitted. -/
theorem below_threshold_frame (th : ℚ) (car : TrackedCar) (d : CarData)
    (now : ℕ) (h : d.price = car.price ∨ pricePct car.price d.price < th) :
    monitorListing th car (FetchOutcome.data d) now =
      ({ car with last_check := now }, none) := by
  simp only [monitorListing]
  by_cases he : car.price = d.price
  · rw [if_pos he]
  · have hp : pricePct car.price d.price < th := by
      rcases h with h | h
      · exact absurd h.symm he
      · exact h
    by_cases hz : car.price = 0
    · rw [if_neg he, if_pos hz]
    · rw [if_neg he, if_neg hz, if_neg (not_le.mpr hp)]

/-- Witness for C2: the specification's scenario, 1,000,000 drifting to
960,000 at threshold 5 (a 4 percent delta, absorbed). -/
theorem below_threshold_frame_witness :
    monitorListing 5 exCar (FetchOutcome.data exDrift) 7 =
      ({ exCar with last_check := 7 }, none) :=
  below_threshold_frame 5 exCar exDrift 7
    (Or.inr (by norm_num [pricePct, exCar, exDrift]))

/-- C3: a tracked listing is created with a one-entry history recording the
creation-time price (so the history invariant holds at creation), and every
poll update preserves the invariant that the last history entry's price
equals the current price while only ever appending entries. -/
theorem price_history_invariant :
    (∀ (d : CarData) (now : ℕ),
        (mkTrackedCar d now).price_history = [{ price := d.price, date := now }] ∧
        histInv (mkTrackedCar d now)) ∧
    (∀ (th : ℚ) (car : TrackedCar) (o : FetchOutcome) (now : ℕ), histInv car →
        histInv (monitorListing th car o now).1 ∧
        ∃ t, (monitorListing th car o now).1.price_history = car.price_history ++ t) := by
  constructor
  · intro d now
    exact ⟨rfl, by simp [histInv, mkTrackedCar]⟩
  · intro th car o now hinv
    cases o with
    | raise => exact ⟨hinv, ⟨[], by simp [monitorListing]⟩⟩
    | noData => exact ⟨hinv, ⟨[], by simp [monitorListing]⟩⟩
    | data d =>
        simp only [monitorListing]
        by_cases he : car.price = d.price
        · rw [if_pos he]
          exact ⟨hinv, ⟨[], by simp⟩⟩
        · rw [if_neg he]
          by_cases hz : car.price = 0
          · rw [if_pos hz]
            exact ⟨hinv, ⟨[], by simp⟩⟩
          · rw [if_neg hz]
            by_cases hth : th ≤ pricePct car.price d.price
            · rw [if_pos hth]
              exact ⟨by simp [histInv, getLast_append_single],
                ⟨[{ price := d.price, date := now }], rfl⟩⟩
            · rw [if_neg hth]
              exact ⟨hinv, ⟨[], by simp⟩⟩

/-- Witness for C3: applying the accepted 10 percent drop to a concrete
listing keeps the invariant. -/
theorem price_history_invariant_witness :
    histInv (monitorListing 5 exCar (FetchOutcome.data exDrop) 7).1 :=
  (price_history_invariant.2 5 exCar (FetchOutcome.data exDrop) 7 (by decide)).1

/-- C4 (evidence): with a minimum-price filter of 500,000 and a snapshot
priced 400,000, the first submission warns and stays in the URL-awaiting
state with no listing created, and resubmitting the very same URL with the
same snapshot produces the identical warning again — the filter check is
not bypassed and no listing is ever created, contrary to the override the
source's own reply text promises. -/
theorem resubmit_does_not_override :
    handle_url_received 0 c4Sess c4Url (some c4Snap) =
      (c4Sess, [OutMsg.fetching, OutMsg.filterMismatch "Kia Rio" 400000 none]) ∧
    handle_url_received 1 c4Sess c4Url (some c4Snap) =
      (c4Sess, [OutMsg.fetching, OutMsg.filterMismatch "Kia Rio" 400000 none]) := by
  decide

/-- C5 counterexample: a snapshot whose year field is present but zero,
against a stored lower year bound of 1900.  The claim's rejection condition
(year present and below yearMin) holds, yet `check_filters` accepts the
snapshot because the source treats a zero year as absent. -/
theorem filters_claim_cex :
    claimRejects c5Snap c5Filters = true ∧ check_filters c5Snap c5Filters = true := by
  decide

/-- C5 amended: `check_filters` returns false exactly under the truthiness
reading — a bound counts as set only when present and non-zero, and year
constraints apply only when the snapshot year is present and non-zero;
condition and documents never reject. -/
theorem filters_truthy_rejection (car : CarData) (f : Filters) :
    check_filters car f = false ↔ truthyRejects car f = true := by
  unfold check_filters truthyRejects
  split_ifs with h1 h2 h3 h4 h5 <;> simp_all

/-- C6: submitting a URL already present in the user's tracked set yields
the duplicate error, returns the session to the main menu, and leaves the
user record (hence the tracked set and its size) unchanged. -/
theorem duplicate_add_rejected (now : ℕ) (sess : Session) (url : String)
    (fetched : Option CarData)
    (hsite : siteOk url = true)
    (hdup : (List.lookup url sess.user.monitored_cars).isSome = true) :
    handle_url_received now sess url fetched =
      ({ sess with state := BotState.mainMenu }, [OutMsg.duplicateListing]) := by
  unfold handle_url_received
  rw [if_neg (by simp [hsite]), if_pos hdup]

/-- Witness for C6: resubmitting the one URL `dupUser` already tracks. -/
theorem duplicate_add_rejected_witness :
    handle_url_received 3 dupSess "https://auto.ru/cars/used/sale/1" (some exDrop) =
      ({ dupSess with state := BotState.mainMenu }, [OutMsg.duplicateListing]) :=
  duplicate_add_rejected 3 dupSess "https://auto.ru/cars/used/sale/1" (some exDrop)
    (by decide) (by decide)

/-- C7: for integer input in the year states — a non-zero value outside
[1900, currentYear] keeps the session and filters unchanged and emits the
error restating the valid range; the value 0 clears the corresponding
bound; a value within the range is stored; and valid input transitions
YearMin to YearMax and YearMax to the filter menu. -/
theorem year_input_validation (currentYear : ℤ) (sess : Session) (s : String)
    (n : ℤ) (hp : pyInt s = some n) :
    (n ≠ 0 → n < 1900 ∨ currentYear < n →
        handle_year_min currentYear sess s =
          (sess, [OutMsg.yearRangeError 1900 currentYear]) ∧
        handle_year_max currentYear sess s =
          (sess, [OutMsg.yearRangeError 1900 currentYear])) ∧
    (n = 0 →
        handle_year_min currentYear sess s =
          ({ state := BotState.yearMax,
             user := { sess.user with filters :=
               { sess.user.filters with year_min := none } } },
           [OutMsg.askYearMax]) ∧
        handle_year_max currentYear sess s =
          ({ state := BotState.settingFilters,
             user := { sess.user with filters :=
               { sess.user.filters with year_max := none } } },
           [OutMsg.yearSet])) ∧
    (1900 ≤ n → n ≤ currentYear →
        handle_year_min currentYear sess s =
          ({ state := BotState.yearMax,
             user := { sess.user with filters :=
               { sess.user.filters with year_min := some n } } },
           [OutMsg.askYearMax]) ∧
        handle_year_max currentYear sess s =
          ({ state := BotState.settingFilters,
             user := { sess.user with filters :=
               { sess.user.filters with year_max := some n } } },
           [OutMsg.yearSet])) := by
  refine ⟨?_, ?_, ?_⟩
  · intro h0 hout
    have hc : n ≠ 0 ∧ (n < 1900 ∨ currentYear < n) := ⟨h0, hout⟩
    constructor
    · simp only [handle_year_min, hp]
      rw [if_pos hc]
    · simp only [handle_year_max, hp]
      rw [if_pos hc]
  · intro h0
    subst h0
    have hc : ¬ ((0:ℤ) ≠ 0 ∧ ((0:ℤ) < 1900 ∨ currentYear < 0)) := fun hx => hx.1 rfl
    constructor
    · simp only [handle_year_min, hp]
      rw [if_neg hc]
      norm_num
    · simp only [handle_year_max, hp]
      rw [if_neg hc]
      norm_num
  · intro hlo hhi
    have hc : ¬ (n ≠ 0 ∧ (n < 1900 ∨ currentYear < n)) := by
      rintro ⟨h0, h | h⟩ <;> linarith
    have hpos : (0:ℤ) < n := by linarith
    constructor
    · simp only [handle_year_min, hp]
      rw [if_neg hc, if_pos hpos]
    · simp only [handle_year_max, hp]
      rw [if_neg hc, if_pos hpos]

/-- Witness for C7: the year 1999 is valid for currentYear 2026 and is
stored as the lower bound, moving the session onward. -/
theorem year_input_validation_witness :
    handle_year_min 2026 dupSess "1999" =
      ({ state := BotState.yearMax,
         user := { dupSess.user with filters :=
           { dupSess.user.filters with year_min := some 1999 } } },
       [OutMsg.askYearMax]) :=
  ((year_input_validation 2026 dupSess "1999" 1999 (by decide)).2.2
    (by norm_num) (by norm_num)).1

/-- C8 counterexample: a minimum price entered while awaiting the maximum
price is committed to the stored filters immediately, so pressing the Back
button afterwards returns to the main menu but retains the entered bound. -/
theorem back_retains_pending_cex :
    c8Mid.state = BotState.priceMax ∧
    c8Mid.user.filters.price_min = some 500000 ∧
    (handle_message 2026 0 none c8Mid "« Назад").1.state = BotState.mainMenu ∧
    (handle_message 2026 0 none c8Mid "« Назад").1.user.filters.price_min =
      some 500000 := by
  decide

/-- C8 amended: the Back label transitions every dialog state
unconditionally to the main menu and does not itself mutate the stored user
record; values already committed by completed steps of a multi-step flow
are retained, because each step persists its value immediately. -/
theorem back_returns_to_main_menu (currentYear : ℤ) (now : ℕ)
    (fetched : Option CarData) (sess : Session) :
    handle_message currentYear now fetched sess "« Назад" =
      ({ sess with state := BotState.mainMenu }, [OutMsg.welcome]) := by
  rfl

/-- C9: a polling pass processes every listing of every user independently
(the result is pointwise the per-listing step, so one failure never aborts
the remainder), a listing whose fetch raised or returned no data is left
completely unmutated with no notification, and the caught division-by-zero
case only refreshes the last-checked timestamp. -/
theorem polling_pass_isolation (th : ℚ) (now : ℕ)
    (l : List ((String × TrackedCar) × FetchOutcome))
    (users : List (UserData × List FetchOutcome)) :
    (monitorCars th now l).1.length = l.length ∧
    (monitorCars th now l).1 =
      l.map (fun p => (p.1.1, (monitorListing th p.1.2 p.2 now).1)) ∧
    (monitorPass now users).length = users.length ∧
    (∀ (car : TrackedCar) (o : FetchOutcome),
        o = FetchOutcome.raise ∨ o = FetchOutcome.noData →
        monitorListing th car o now = (car, none)) ∧
    (∀ (car : TrackedCar) (d : CarData),
        car.price = 0 → car.price ≠ d.price →
        monitorListing th car (FetchOutcome.data d) now =
          ({ car with last_check := now }, none)) := by
  refine ⟨?_, ?_, ?_, ?_, ?_⟩
  · induction l with
    | nil => rfl
    | cons p rest ih => simpa [monitorCars] using ih
  · induction l with
    | nil => rfl
    | cons p rest ih => simpa [monitorCars] using ih
  · induction users with
    | nil => rfl
    | cons u rest ih => simpa [monitorPass] using ih
  · intro car o h
    rcases h with h | h <;> subst h <;> rfl
  · intro car d hz hne
    simp only [monitorListing]
    rw [if_neg hne, if_pos hz]

/-- Witness for C9: a raised fetch leaves a concrete listing untouched. -/
theorem polling_pass_isolation_witness :
    monitorListing 5 exCar FetchOutcome.raise 3 = (exCar, none) :=
  (polling_pass_isolation 5 3 [] []).2.2.2.1 exCar FetchOutcome.raise (Or.inl rfl)

/-- C10: from every dialog state, a message whose lowercased text is one of
the three escape texts is dispatched through the main-menu branch; since
none of them is a recognized menu label, the handler falls through to the
start action, resetting the session to the main menu without touching the
stored user record. -/
theorem escape_text_resets_to_main_menu (currentYear : ℤ) (now : ℕ)
    (fetched : Option CarData) (sess : Session) (message : String)
    (h : pyLower message ∈ escapeTexts) :
    handle_message currentYear now fetched sess message =
      ({ sess with state := BotState.mainMenu }, [OutMsg.welcome]) := by
  have hb : message ≠ "« Назад" := by
    intro he; rw [he] at h; revert h; decide
  have h1 : message ≠ "🏙 Выбрать город" := by
    intro he; rw [he] at h; revert h; decide
  have h2 : message ≠ "➕ Добавить объявление" := by
    intro he; rw [he] at h; revert h; decide
  have h3 : message ≠ "📋 Мои объявления" := by
    intro he; rw [he] at h; revert h; decide
  have h4 : message ≠ "🔍 Фильтры" := by
    intro he; rw [he] at h; revert h; decide
  have h5 : message ≠ "⚙️ Настройки" := by
    intro he; rw [he] at h; revert h; decide
  have h6 : message ≠ "❓ Помощь" := by
    intro he; rw [he] at h; revert h; decide
  unfold handle_message
  rw [if_neg hb, if_pos (Or.inr h), if_neg h1, if_neg h2, if_neg h3,
    if_neg h4, if_neg h5, if_neg h6]
  rfl

/-- Witness for C10: the text "Start" (lowercased "start") resets a session
that is in the URL-awaiting state. -/
theorem escape_text_resets_to_main_menu_witness :
    handle_message 2026 0 none dupSess "Start" =
      ({ dupSess with state := BotState.mainMenu }, [OutMsg.welcome]) :=
  escape_text_resets_to_main_menu 2026 0 none dupSess "Start" (by decide)

end VKBot
